import Mathlib

/-!
Shallow embedding of the sqlglotXllm procedure-conversion pipeline.

The repository wraps the deterministic sqlglot transpiler with a generative
assistant.  External collaborators (the sqlglot parser/transpiler, the
Ollama chat endpoint, and the raw HTTP generate endpoint used by
`procedure.py`) are modelled as an `Oracle` of pure functions; a fallible
collaborator returns `Option`/`Except`.  Each pipeline function returns the
ordered list of assistant requests it issued together with its
`Except`-valued result, so that error propagation and "no assistant call
happened" facts are expressible.
-/

/-- Characters removed by Python's `str.strip()` (the ASCII whitespace set;
`strip` with no argument also removes some Unicode spaces, which never occur
in this pipeline's data). -/
def pyIsSpace (c : Char) : Bool :=
  c = ' ' || c = '\t' || c = '\n' || c = '\r' || c = '\x0b' || c = '\x0c'

/-- Python `s.strip()`: drop leading and trailing whitespace. -/
def pyStrip (s : String) : String :=
  String.mk (((s.toList.dropWhile pyIsSpace).reverse.dropWhile pyIsSpace).reverse)

/-- Python `s.rstrip(";")`: drop every trailing semicolon (the argument of
`rstrip` is a set of characters, all trailing occurrences are removed). -/
def rstripSemis (s : String) : String :=
  String.mk ((s.toList.reverse.dropWhile (fun c => c = ';')).reverse)

/-- Line-boundary characters recognised by Python `str.splitlines`. -/
def isLineBreak (c : Char) : Bool :=
  c = '\n' || c = '\r' || c = '\x0b' || c = '\x0c' || c = '\x1c' || c = '\x1d' ||
  c = '\x1e' || c = '\x85' || c = '\u2028' || c = '\u2029'

/-- Worker for `pySplitlines`; `acc` holds the current line reversed. -/
def splitlinesGo : List Char → List Char → List String
  | [], acc => if acc.isEmpty then [] else [String.mk acc.reverse]
  | '\r' :: '\n' :: rest, acc => String.mk acc.reverse :: splitlinesGo rest []
  | c :: rest, acc =>
      if isLineBreak c then String.mk acc.reverse :: splitlinesGo rest []
      else splitlinesGo rest (c :: acc)

/-- Python `s.splitlines()`: split at line boundaries (treating `\r\n` as one
boundary), with no trailing empty line for a trailing terminator. -/
def pySplitlines (s : String) : List String :=
  splitlinesGo s.toList []

/-- The list comprehension
`[line.strip() for line in content.splitlines() if line.strip()]`
from `LLMWrapper._decompose_procedure`: strip each line, keep the non-empty
results, in order. -/
def pyCleanLines (content : String) : List String :=
  (pySplitlines content).filterMap
    (fun line => let s := pyStrip line; if s = "" then none else some s)

/-- Worker for `pySplitSemis`; `acc` holds the current piece reversed. -/
def splitSemisGo : List Char → List Char → List String
  | [], acc => [String.mk acc.reverse]
  | ';' :: rest, acc => String.mk acc.reverse :: splitSemisGo rest []
  | c :: rest, acc => splitSemisGo rest (c :: acc)

/-- Python `raw.split(";")`: split at every semicolon, keeping empty pieces
(so `"".split(";") == [""]`). -/
def pySplitSemis (raw : String) : List String :=
  splitSemisGo raw.toList []

/-- The comprehension `[s.strip() for s in raw.split(";") if s.strip()]` from
`procedure.extract_transpilable_sql`: split on semicolons, strip, keep the
non-empty results, in order. -/
def pySemiClean (raw : String) : List String :=
  (pySplitSemis raw).filterMap
    (fun piece => let s := pyStrip piece; if s = "" then none else some s)

/-- Python `str.upper()` restricted to ASCII letters (the only characters
occurring in sqlglot object kinds such as "TABLE" or "PROCEDURE"). -/
def pyUpperChar (c : Char) : Char :=
  if 97 ≤ c.toNat ∧ c.toNat ≤ 122 then Char.ofNat (c.toNat - 32) else c

/-- Python `s.upper()` on ASCII data. -/
def pyUpper (s : String) : String :=
  String.mk (s.toList.map pyUpperChar)

/-- The classification-relevant shape of a parsed sqlglot expression, per
sqlglot's class hierarchy: `Create` and `Insert` both derive from `DDL`, so
`isinstance(e, exp.DDL)` holds for them; `create` carries the optional
declared object kind (`expression.kind`, e.g. "TABLE" or "PROCEDURE"). -/
inductive Expression where
  | create (kind : Option String)
  | insert
  | otherDDL
  | nonDDL
deriving DecidableEq, Repr

/-- `isinstance(expression, exp.Create)`. -/
def Expression.isCreate : Expression → Bool
  | .create _ => true
  | _ => false

/-- `isinstance(expression, exp.Insert)`. -/
def Expression.isInsert : Expression → Bool
  | .insert => true
  | _ => false

/-- `isinstance(expression, exp.DDL)`: `Create` and `Insert` are subclasses
of `DDL` in sqlglot, so they satisfy this check as well. -/
def Expression.isDDL : Expression → Bool
  | .create _ => true
  | .insert => true
  | .otherDDL => true
  | .nonDDL => false

/-- The `kind` attribute of a `Create` node (`none` elsewhere). -/
def Expression.createKind : Expression → Option String
  | .create k => k
  | _ => none

/-- One `{role, content}` message of an Ollama chat request. -/
structure Message where
  role : String
  content : String
deriving DecidableEq, Repr

/-- One `ollama.chat` request as issued at the call boundary in
`llm_wrapper.py`.  `timeout` records the timeout argument supplied at that
boundary; `ollama.chat(model=..., messages=...)` supplies none. -/
structure ChatCall where
  model : String
  messages : List Message
  timeout : Option Nat
deriving DecidableEq, Repr

/-- One `requests.post(url, json={model, prompt, stream: False}, timeout=60)`
request as issued by `procedure._call_llm`. -/
structure GenCall where
  model : String
  prompt : String
  url : String
  timeout : Option Nat
deriving DecidableEq, Repr

/-- The external collaborators, modelled as pure fallible functions:
`parse_one` and `transpile` are sqlglot (`none` = raised an exception, or,
for `transpile`, returned no element for `[0]`); `chat` is `ollama.chat`
(`Except.error` = transport error); `generate` is the raw HTTP endpoint of
`procedure._call_llm` (`Except.error` = request exception or bad status). -/
structure Oracle where
  parse_one : String → String → Option Expression
  transpile : String → String → String → Option String
  chat : ChatCall → Except String String
  generate : GenCall → Except String String

deriving instance DecidableEq for Except

/-- The errors the pipeline can surface to its caller. -/
inductive Err where
  | invalidInput (msg : String)
  | transpileError
  | chatError (msg : String)
deriving DecidableEq, Repr

namespace LLMWrapper

/-- `STORED_PROCEDURE_PROMPT` up to its `INPUT_PROCEDURE` slot. -/
def STORED_PROCEDURE_PROMPT_PRE : String :=
  "You are an expert in SingleStore Helios stored-procedure syntax and " ++
  "semantics.  Your job is to take the INPUT_PROCEDURE, identify any " ++
  "language constructs or SQL features that are not supported by SingleStore, " ++
  "and emit a fully valid SingleStore stored procedure as OUTPUT_PROCEDURE.\n\n" ++
  "Make these changes automatically:\n" ++
  "• Rewrite the header as CREATE OR REPLACE PROCEDURE, include any RETURNS " ++
  "clause and the appropriate AUTHORIZE AS DEFINER or AUTHORIZE AS CURRENT_USER " ++
  "clause.\n" ++
  "• Declare all local variables with DECLARE and default-value assignments, " ++
  "remove unsupported modifiers on query-type parameters.\n" ++
  "• Replace any multi-row returns with ECHO SELECT to emit a rowset, or use " ++
  "RETURNS QUERY(...) where appropriate.\n" ++
  "• Wrap the procedure body between DELIMITER // and DELIMITER ; so that " ++
  "semicolons within the body are handled correctly by MySQL clients.\n" ++
  "• Strip or refactor any DDL statements that SingleStore does not allow " ++
  "inside procedures invoked from pipelines.\n" ++
  "• Ensure that any unsupported statements (for example EXPLAIN BALANCE or " ++
  "DDL inside a pipeline) are either removed or rewritten to SingleStore " ++
  "equivalents.\n" ++
  "• Preserve nested DECLARE blocks, %ROWTYPE and %TYPE uses, and loop or " ++
  "control-flow constructs, translating them into SingleStoreâ€™s procedural " ++
  "extensions.\n" ++
  "At the end, output the converted procedure code only, formatted with " ++
  "appropriate DELIMITER commands and SQL fences.\n\n" ++
  "Here is the procedure to convert.  Replace INPUT_PROCEDURE with the original " ++
  "routine:\n\nINPUT_PROCEDURE:\n"

/-- `STORED_PROCEDURE_PROMPT.format(procedure=...)`. -/
def STORED_PROCEDURE_PROMPT (procedure : String) : String :=
  STORED_PROCEDURE_PROMPT_PRE ++ procedure ++ "\n\nOUTPUT_PROCEDURE:"

/-- `BREAKDOWN_PROMPT.format(procedure=...)`. -/
def BREAKDOWN_PROMPT (procedure : String) : String :=
  "List each data manipulation statement (SELECT, INSERT, UPDATE, DELETE, " ++
  "MERGE) from the following stored procedure. Return one statement per " ++
  "line in the same order and do not include any additional text.\n\n" ++
  "STORED_PROCEDURE:\n" ++ procedure ++ "\n\nSTATEMENTS:"

/-- `REASSEMBLE_PROMPT.format(procedure=..., converted=...)`: the
stored-procedure template followed by the converted-statements block. -/
def REASSEMBLE_PROMPT (procedure converted : String) : String :=
  STORED_PROCEDURE_PROMPT procedure ++
  "\nUse these SingleStore statements for the procedure body:\n" ++ converted ++ "\n"

/-- `LLMWrapper._query_type`: classify a parsed expression, first match wins:
a `Create` whose `kind` (None treated as `""`) upper-cases to "PROCEDURE",
then `Insert`, then any other `DDL`, else a plain query. -/
def _query_type (expression : Expression) : String :=
  if expression.isCreate = true ∧
      pyUpper ((expression.createKind).getD "") = "PROCEDURE" then "stored procedure"
  else if expression.isInsert = true then "insert query"
  else if expression.isDDL = true then "DDL query"
  else "query"

/-- `LLMWrapper._prompt`: the stored-procedure template for procedures, a
double-check prompt for everything else (the `dialect` argument is unused in
the source as well). -/
def _prompt (kind sql : String) (dialect : Option String) : String :=
  if kind = "stored procedure" then STORED_PROCEDURE_PROMPT sql
  else "Double check that the following " ++ kind ++ " is valid SingleStore SQL:\n" ++ sql

/-- The `ollama.chat` request issued by `_decompose_procedure` (no timeout is
supplied at the call boundary). -/
def decomposeCall (model sql : String) : ChatCall :=
  { model := model
    messages :=
      [ { role := "system", content := "You extract SQL statements." },
        { role := "user", content := BREAKDOWN_PROMPT sql } ]
    timeout := none }

/-- The `ollama.chat` request issued by `_reassemble_procedure`. -/
def reassembleCall (model original converted : String) : ChatCall :=
  { model := model
    messages :=
      [ { role := "system", content := "You translate SQL between dialects." },
        { role := "user", content := REASSEMBLE_PROMPT original converted } ]
    timeout := none }

/-- The `ollama.chat` request issued on the non-procedure path of
`to_singlestore`. -/
def validateCall (model promptText : String) : ChatCall :=
  { model := model
    messages :=
      [ { role := "system", content := "You translate SQL between dialects." },
        { role := "user", content := promptText } ]
    timeout := none }

/-- `LLMWrapper._decompose_procedure`: one chat call, then
`[line.strip() for line in content.splitlines() if line.strip()]`.
Returns the issued calls and the result. -/
def _decompose_procedure (o : Oracle) (model sql : String) :
    List ChatCall × Except Err (List String) :=
  let c := decomposeCall model sql
  match o.chat c with
  | .error e => ([c], .error (.chatError e))
  | .ok content => ([c], .ok (pyCleanLines content))

/-- `LLMWrapper._reassemble_procedure`: one chat call, response stripped. -/
def _reassemble_procedure (o : Oracle) (model original converted : String) :
    List ChatCall × Except Err String :=
  let c := reassembleCall model original converted
  match o.chat c with
  | .error e => ([c], .error (.chatError e))
  | .ok content => ([c], .ok (pyStrip content))

/-- One iteration of the loop in `LLMWrapper._transpile_procedure`:
`text = stmt.rstrip(";")`, then `try: text = transpile(text, read=dialect,
write="singlestore")[0] except Exception: pass`, then append `text + ";"`. -/
def convertStatement (tp : String → String → String → Option String)
    (dialect stmt : String) : String :=
  let text := rstripSemis stmt
  let text2 :=
    match tp text dialect "singlestore" with
    | some t => t
    | none => text
  text2 ++ ";"

/-- `LLMWrapper._transpile_procedure`: decompose, convert each statement with
per-statement fallback, join with newlines, reassemble. -/
def _transpile_procedure (o : Oracle) (model sql dialect : String) :
    List ChatCall × Except Err String :=
  match _decompose_procedure o model sql with
  | (t1, .error e) => (t1, .error e)
  | (t1, .ok statements) =>
      let converted := statements.map (convertStatement o.transpile dialect)
      let joined := String.intercalate "\n" converted
      match _reassemble_procedure o model sql joined with
      | (t2, r2) => (t1 ++ t2, r2)

/-- `LLMWrapper.to_singlestore`: parse (failure becomes
`ValueError("Please provide sql.")`), classify, route to the procedure path
or to deterministic transpile (uncaught on failure) plus one validation chat
call whose stripped response is returned. -/
def to_singlestore (o : Oracle) (model sql dialect : String) :
    List ChatCall × Except Err String :=
  match o.parse_one sql dialect with
  | none => ([], .error (.invalidInput "Please provide sql."))
  | some expression =>
      let kind := _query_type expression
      if kind = "stored procedure" then
        _transpile_procedure o model sql dialect
      else
        match o.transpile sql dialect "singlestore" with
        | none => ([], .error .transpileError)
        | some transpiled =>
            let promptText := _prompt kind transpiled none
            let c := validateCall model promptText
            match o.chat c with
            | .error e => ([c], .error (.chatError e))
            | .ok content => ([c], .ok (pyStrip content))

end LLMWrapper

namespace Procedure

/-- `procedure.LLM_URL`. -/
def LLM_URL : String := "http://localhost:11434/api/generate"

/-- The HTTP request issued by `procedure._call_llm`: the payload plus the
explicit `timeout=60` passed to `requests.post`. -/
def genCall (model promptText url : String) : GenCall :=
  { model := model, prompt := promptText, url := url, timeout := some 60 }

/-- `procedure._call_llm`: one generate request; transport errors and
non-success statuses (`raise_for_status`) propagate, otherwise the
response field is returned. -/
def _call_llm (o : Oracle) (promptText model url : String) :
    List GenCall × Except Err String :=
  let c := genCall model promptText url
  match o.generate c with
  | .error e => ([c], .error (.chatError e))
  | .ok resp => ([c], .ok resp)

/-- The extraction prompt of `procedure.extract_transpilable_sql`. -/
def extractPrompt (procedure : String) : String :=
  "Extract the SQL statements from the following stored procedure. " ++
  "Return the statements separated by a semicolon.\n" ++ procedure

/-- `procedure.extract_transpilable_sql`: one LLM call, then
`[s.strip() for s in raw.split(";") if s.strip()]`. -/
def extract_transpilable_sql (o : Oracle) (procedure model url : String) :
    List GenCall × Except Err (List String) :=
  match _call_llm o (extractPrompt procedure) model url with
  | (t, .error e) => (t, .error e)
  | (t, .ok raw) => (t, .ok (pySemiClean raw))

/-- `procedure.transpile_procedure`: extract, transpile every statement (a
failure of any `transpile(stmt, ...)[0]` propagates — there is no try/except
here), join with ";\n", terminate, and wrap in DELIMITER framing. -/
def transpile_procedure (o : Oracle) (procedure read write model url : String) :
    List GenCall × Except Err String :=
  match extract_transpilable_sql o procedure model url with
  | (t, .error e) => (t, .error e)
  | (t, .ok statements) =>
      match statements.mapM (fun stmt => o.transpile stmt read write) with
      | none => (t, .error .transpileError)
      | some converted =>
          let body := String.intercalate ";\n" converted ++ ";"
          (t, .ok ("DELIMITER //\n" ++ body ++ "\n//\nDELIMITER ;"))

end Procedure

section Lemmas

/-- Unfolding `_decompose_procedure` when the chat call succeeds. -/
theorem decompose_eq_ok (o : Oracle) (model sql content : String)
    (h : o.chat (LLMWrapper.decomposeCall model sql) = .ok content) :
    LLMWrapper._decompose_procedure o model sql =
      ([LLMWrapper.decomposeCall model sql], .ok (pyCleanLines content)) := by
  simp only [LLMWrapper._decompose_procedure, h]

/-- Unfolding `_decompose_procedure` when the chat call fails. -/
theorem decompose_eq_err (o : Oracle) (model sql e : String)
    (h : o.chat (LLMWrapper.decomposeCall model sql) = .error e) :
    LLMWrapper._decompose_procedure o model sql =
      ([LLMWrapper.decomposeCall model sql], .error (.chatError e)) := by
  simp only [LLMWrapper._decompose_procedure, h]

/-- Unfolding `_reassemble_procedure` when the chat call succeeds. -/
theorem reassemble_eq_ok (o : Oracle) (model original converted content : String)
    (h : o.chat (LLMWrapper.reassembleCall model original converted) = .ok content) :
    LLMWrapper._reassemble_procedure o model original converted =
      ([LLMWrapper.reassembleCall model original converted], .ok (pyStrip content)) := by
  simp only [LLMWrapper._reassemble_procedure, h]

/-- Unfolding `_reassemble_procedure` when the chat call fails. -/
theorem reassemble_eq_err (o : Oracle) (model original converted e : String)
    (h : o.chat (LLMWrapper.reassembleCall model original converted) = .error e) :
    LLMWrapper._reassemble_procedure o model original converted =
      ([LLMWrapper.reassembleCall model original converted], .error (.chatError e)) := by
  simp only [LLMWrapper._reassemble_procedure, h]

/-- Unfolding `_transpile_procedure` when decomposition's chat call fails. -/
theorem transpile_procedure_eq_err (o : Oracle) (model sql dialect e : String)
    (h : o.chat (LLMWrapper.decomposeCall model sql) = .error e) :
    LLMWrapper._transpile_procedure o model sql dialect =
      ([LLMWrapper.decomposeCall model sql], .error (.chatError e)) := by
  unfold LLMWrapper._transpile_procedure
  rw [decompose_eq_err o model sql e h]


/-- Unfolding `_transpile_procedure` when decomposition's chat call succeeds:
the converted statements are joined and handed to reassembly. -/
theorem transpile_procedure_eq_ok (o : Oracle) (model sql dialect content : String)
    (h : o.chat (LLMWrapper.decomposeCall model sql) = .ok content) :
    LLMWrapper._transpile_procedure o model sql dialect =
      (LLMWrapper.decomposeCall model sql ::
        (LLMWrapper._reassemble_procedure o model sql
          (String.intercalate "\n"
            ((pyCleanLines content).map (LLMWrapper.convertStatement o.transpile dialect)))).1,
       (LLMWrapper._reassemble_procedure o model sql
          (String.intercalate "\n"
            ((pyCleanLines content).map (LLMWrapper.convertStatement o.transpile dialect)))).2) := by
  unfold LLMWrapper._transpile_procedure
  rw [decompose_eq_ok o model sql content h]
  rfl


/-- `convertStatement` in closed form: the transpiler is consulted exactly on
the fully right-stripped text, and a single terminator is appended on both
paths. -/
theorem convertStatement_getD (tp : String → String → String → Option String)
    (dialect stmt : String) :
    LLMWrapper.convertStatement tp dialect stmt =
      ((tp (rstripSemis stmt) dialect "singlestore").getD (rstripSemis stmt)) ++ ";" := by
  cases h : tp (rstripSemis stmt) dialect "singlestore" with
  | none => simp [LLMWrapper.convertStatement, h]
  | some t => simp [LLMWrapper.convertStatement, h]

/-- Appending the terminator makes the result non-empty. -/
theorem append_semi_ne_empty (s : String) : s ++ ";" ≠ "" := by
  intro h
  have h2 := congrArg String.length h
  rw [String.length_append] at h2
  rw [show (";" : String).length = 1 from rfl, show ("" : String).length = 0 from rfl] at h2
  omega

/-- The strip-and-filter comprehension equals mapping `strip` over the lines
and then filtering out the empties. -/
theorem filterMap_strip_eq (l : List String) :
    l.filterMap (fun line => let s := pyStrip line; if s = "" then none else some s) =
      (l.map pyStrip).filter (fun s => !(s == "")) := by
  induction l with
  | nil => rfl
  | cons a t ih =>
    simp only [List.filterMap_cons, List.map_cons, List.filter_cons]
    by_cases h : pyStrip a = ""
    · simp [h, ih]
    · simp [h, ih]

end Lemmas

/-- C3: every parsed unit is classified into exactly one of the four handling
classes, by the fixed priority: a creation statement whose declared kind
upper-cases to "PROCEDURE" is a stored procedure; else an insertion statement;
else any other data-definition statement; else a generic query.  Purity and
determinism hold because `_query_type` is a total Lean function of the parsed
shape. -/
theorem C3_classifier_rules (e : Expression) :
    LLMWrapper._query_type e ∈
        (["stored procedure", "insert query", "DDL query", "query"] : List String) ∧
    (LLMWrapper._query_type e = "stored procedure" ↔
      (e.isCreate = true ∧ pyUpper ((e.createKind).getD "") = "PROCEDURE")) ∧
    (LLMWrapper._query_type e = "insert query" ↔
      (¬(e.isCreate = true ∧ pyUpper ((e.createKind).getD "") = "PROCEDURE") ∧
        e.isInsert = true)) ∧
    (LLMWrapper._query_type e = "DDL query" ↔
      (¬(e.isCreate = true ∧ pyUpper ((e.createKind).getD "") = "PROCEDURE") ∧
        e.isInsert = false ∧ e.isDDL = true)) ∧
    (LLMWrapper._query_type e = "query" ↔
      (¬(e.isCreate = true ∧ pyUpper ((e.createKind).getD "") = "PROCEDURE") ∧
        e.isInsert = false ∧ e.isDDL = false)) := by
  by_cases hp : (e.isCreate = true ∧ pyUpper ((e.createKind).getD "") = "PROCEDURE")
  · simp [LLMWrapper._query_type, hp]
  · by_cases hi : e.isInsert = true
    · simp [LLMWrapper._query_type, hp, hi]
    · by_cases hd : e.isDDL = true
      · simp [LLMWrapper._query_type, hp, hi, hd]
      · simp [LLMWrapper._query_type, hp, hi, hd]

/-- C3 applied: a lower-case "procedure" creation is a stored procedure, a
"TABLE" creation is DDL, an insertion is an insert query, a plain select is a
generic query. -/
theorem C3_classifier_rules_app :
    LLMWrapper._query_type (.create (some "procedure")) = "stored procedure" ∧
    LLMWrapper._query_type (.create (some "TABLE")) = "DDL query" ∧
    LLMWrapper._query_type .insert = "insert query" ∧
    LLMWrapper._query_type .nonDDL = "query" :=
  ⟨((C3_classifier_rules (.create (some "procedure"))).2.1).mpr (by decide),
   ((C3_classifier_rules (.create (some "TABLE"))).2.2.2.1).mpr (by decide),
   ((C3_classifier_rules .insert).2.2.1).mpr (by decide),
   ((C3_classifier_rules .nonDDL).2.2.2.2).mpr (by decide)⟩

/-- A deterministic transpiler that fails on every statement. -/
def tpFail : String → String → String → Option String := fun _ _ _ => none

/-- A deterministic transpiler that succeeds, bracketing its input so the
exact text it was invoked on is visible in the output. -/
def tpBracket : String → String → String → Option String :=
  fun t _ _ => some ("[" ++ t ++ "]")

/-- A transpiler agreeing with `tpBracket` on "A" and failing elsewhere. -/
def tpBracketAtA : String → String → String → Option String :=
  fun t _ _ => if t = "A" then some ("[" ++ t ++ "]") else none

/-- C1, counterexample: on the statement "SELECT 1;;" with a failing
transpiler, the per-statement conversion returns "SELECT 1;" — not the
original statement text "SELECT 1;;" with its terminators intact — because
`rstrip(";")` removes every trailing terminator and exactly one is
re-appended. -/
theorem C1_counterexample :
    tpFail (rstripSemis "SELECT 1;;") "tsql" "singlestore" = none ∧
    LLMWrapper.convertStatement tpFail "tsql" "SELECT 1;;" = "SELECT 1;" ∧
    ("SELECT 1;" : String) ≠ "SELECT 1;;" :=
  ⟨rfl, by decide, by decide⟩

/-- C1, amended: if the deterministic transpiler fails on a statement, the
per-statement conversion returns the original statement text with all
trailing terminators stripped and a single terminator appended — never an
empty string and never an exception (the conversion is a total function) —
and the conversion of a batch maps each statement independently, so one
failing statement never blocks conversion of the rest of the batch. -/
theorem C1_fallback_total (tp : String → String → String → Option String)
    (dialect stmt : String) (pre post : List String)
    (h : tp (rstripSemis stmt) dialect "singlestore" = none) :
    LLMWrapper.convertStatement tp dialect stmt = rstripSemis stmt ++ ";" ∧
    LLMWrapper.convertStatement tp dialect stmt ≠ "" ∧
    (pre ++ stmt :: post).map (LLMWrapper.convertStatement tp dialect) =
      pre.map (LLMWrapper.convertStatement tp dialect) ++
        LLMWrapper.convertStatement tp dialect stmt ::
          post.map (LLMWrapper.convertStatement tp dialect) := by
  refine ⟨?_, ?_, by simp⟩
  · rw [convertStatement_getD, h]
    rfl
  · rw [convertStatement_getD]
    exact append_semi_ne_empty _

/-- C1 applied at a concrete failing statement inside a concrete batch. -/
theorem C1_fallback_total_app :
    LLMWrapper.convertStatement tpFail "tsql" "DROP x;" = rstripSemis "DROP x;" ++ ";" ∧
    LLMWrapper.convertStatement tpFail "tsql" "DROP x;" ≠ "" ∧
    (["SELECT 1;"] ++ "DROP x;" :: ["SELECT 2;"]).map
        (LLMWrapper.convertStatement tpFail "tsql") =
      ["SELECT 1;"].map (LLMWrapper.convertStatement tpFail "tsql") ++
        LLMWrapper.convertStatement tpFail "tsql" "DROP x;" ::
          ["SELECT 2;"].map (LLMWrapper.convertStatement tpFail "tsql") :=
  C1_fallback_total tpFail "tsql" "DROP x;" ["SELECT 1;"] ["SELECT 2;"] rfl

/-- Modelled from the spec: a per-statement conversion that strips a SINGLE
trailing statement terminator (the behavior claimed in C6) rather than all of
them, then invokes the transpiler and re-appends the terminator. -/
def convertStatementSingleStrip (tp : String → String → String → Option String)
    (dialect stmt : String) : String :=
  let text :=
    match stmt.toList.reverse with
    | ';' :: rest => String.mk rest.reverse
    | _ => stmt
  ((tp text dialect "singlestore").getD text) ++ ";"

/-- C6, counterexample: on "A;;" the code invokes the transpiler on "A" (all
trailing terminators stripped), producing "[A];" under the bracketing
transpiler, whereas stripping a single terminator as claimed would invoke it
on "A;" and produce "[A;];". -/
theorem C6_counterexample :
    LLMWrapper.convertStatement tpBracket "tsql" "A;;" = "[A];" ∧
    convertStatementSingleStrip tpBracket "tsql" "A;;" = "[A;];" ∧
    ("[A];" : String) ≠ "[A;];" :=
  ⟨by decide, by decide, by decide⟩

/-- C6, amended: the per-statement conversion strips ALL trailing statement
terminators before invoking the deterministic transpiler with
`(text, sourceDialect, "singlestore")` — the result depends on the transpiler
only through its value at that fully stripped text — and exactly one
terminator is appended to the output regardless of whether transpilation
succeeded or fell back, so a statement ending in multiple terminators ends up
with exactly one. -/
theorem C6_strip_all (tp tp' : String → String → String → Option String)
    (dialect stmt : String)
    (h : tp (rstripSemis stmt) dialect "singlestore" =
      tp' (rstripSemis stmt) dialect "singlestore") :
    LLMWrapper.convertStatement tp dialect stmt =
      LLMWrapper.convertStatement tp' dialect stmt ∧
    LLMWrapper.convertStatement tp dialect stmt =
      ((tp (rstripSemis stmt) dialect "singlestore").getD (rstripSemis stmt)) ++ ";" :=
  ⟨by rw [convertStatement_getD, convertStatement_getD, h], convertStatement_getD tp dialect stmt⟩

/-- C6 applied: two transpilers that agree on the fully stripped text "A"
convert "A;;" identically. -/
theorem C6_strip_all_app :
    LLMWrapper.convertStatement tpBracket "tsql" "A;;" =
      LLMWrapper.convertStatement tpBracketAtA "tsql" "A;;" ∧
    LLMWrapper.convertStatement tpBracket "tsql" "A;;" =
      ((tpBracket (rstripSemis "A;;") "tsql" "singlestore").getD (rstripSemis "A;;")) ++ ";" :=
  C6_strip_all tpBracket tpBracketAtA "tsql" "A;;" (by decide)

/-- C2: per-statement conversion of a decomposed batch yields exactly one
result per input statement (length preserved), the i-th result is the
conversion of the i-th input statement (order preserved, nothing dropped or
duplicated), and `_transpile_procedure` passes exactly the newline-join of
that converted list, in order, to reassembly. -/
theorem C2_batch_order (o : Oracle) (model sql dialect content : String) (i : Nat)
    (h : o.chat (LLMWrapper.decomposeCall model sql) = .ok content) :
    ((pyCleanLines content).map (LLMWrapper.convertStatement o.transpile dialect)).length
        = (pyCleanLines content).length ∧
    ((pyCleanLines content).map (LLMWrapper.convertStatement o.transpile dialect))[i]? =
      ((pyCleanLines content)[i]?).map (LLMWrapper.convertStatement o.transpile dialect) ∧
    LLMWrapper._transpile_procedure o model sql dialect =
      (LLMWrapper.decomposeCall model sql ::
        (LLMWrapper._reassemble_procedure o model sql
          (String.intercalate "\n"
            ((pyCleanLines content).map (LLMWrapper.convertStatement o.transpile dialect)))).1,
       (LLMWrapper._reassemble_procedure o model sql
          (String.intercalate "\n"
            ((pyCleanLines content).map (LLMWrapper.convertStatement o.transpile dialect)))).2) :=
  ⟨List.length_map _ _,
   List.getElem?_map _ _ _,
   transpile_procedure_eq_ok o model sql dialect content h⟩

/-- An oracle whose assistant decomposes into two statements and otherwise
answers "DONE"; its transpiler is the identity. -/
def oBatch : Oracle :=
  { parse_one := fun _ _ => some (.create (some "PROCEDURE"))
    transpile := fun s _ _ => some s
    chat := fun c =>
      if (c.messages.headD { role := "", content := "" }).content =
          "You extract SQL statements." then .ok "SELECT 1;\nSELECT 2"
      else .ok "DONE"
    generate := fun _ => .ok "" }

/-- C2 applied to a concrete two-statement decomposition. -/
theorem C2_batch_order_app :
    ((pyCleanLines "SELECT 1;\nSELECT 2").map
        (LLMWrapper.convertStatement oBatch.transpile "tsql")).length
        = (pyCleanLines "SELECT 1;\nSELECT 2").length ∧
    ((pyCleanLines "SELECT 1;\nSELECT 2").map
        (LLMWrapper.convertStatement oBatch.transpile "tsql"))[1]? =
      ((pyCleanLines "SELECT 1;\nSELECT 2")[1]?).map
        (LLMWrapper.convertStatement oBatch.transpile "tsql") ∧
    LLMWrapper._transpile_procedure oBatch "llama3" "proc body" "tsql" =
      (LLMWrapper.decomposeCall "llama3" "proc body" ::
        (LLMWrapper._reassemble_procedure oBatch "llama3" "proc body"
          (String.intercalate "\n"
            ((pyCleanLines "SELECT 1;\nSELECT 2").map
              (LLMWrapper.convertStatement oBatch.transpile "tsql")))).1,
       (LLMWrapper._reassemble_procedure oBatch "llama3" "proc body"
          (String.intercalate "\n"
            ((pyCleanLines "SELECT 1;\nSELECT 2").map
              (LLMWrapper.convertStatement oBatch.transpile "tsql")))).2) :=
  C2_batch_order oBatch "llama3" "proc body" "tsql" "SELECT 1;\nSELECT 2" 1 rfl

/-- The procedure path can only fail with a chat error, never with an
invalid-input error. -/
theorem transpile_procedure_ne_invalid (o : Oracle) (model sql dialect msg : String) :
    (LLMWrapper._transpile_procedure o model sql dialect).2 ≠ .error (.invalidInput msg) := by
  cases hc : o.chat (LLMWrapper.decomposeCall model sql) with
  | error e =>
    rw [transpile_procedure_eq_err o model sql dialect e hc]
    simp
  | ok content =>
    rw [transpile_procedure_eq_ok o model sql dialect content hc]
    cases hr : o.chat (LLMWrapper.reassembleCall model sql
        (String.intercalate "\n"
          ((pyCleanLines content).map (LLMWrapper.convertStatement o.transpile dialect)))) with
    | error e2 =>
      rw [reassemble_eq_err _ _ _ _ _ hr]
      simp
    | ok resp =>
      rw [reassemble_eq_ok _ _ _ _ _ hr]
      simp

/-- Unfolding `to_singlestore` on the non-procedure path when parsing,
deterministic transpilation, and the validation chat call all succeed. -/
theorem to_singlestore_nonproc (o : Oracle) (model sql dialect t resp : String)
    (e : Expression)
    (h1 : o.parse_one sql dialect = some e)
    (h2 : LLMWrapper._query_type e ≠ "stored procedure")
    (h3 : o.transpile sql dialect "singlestore" = some t)
    (h4 : o.chat (LLMWrapper.validateCall model
        (LLMWrapper._prompt (LLMWrapper._query_type e) t none)) = .ok resp) :
    LLMWrapper.to_singlestore o model sql dialect =
      ([LLMWrapper.validateCall model
          (LLMWrapper._prompt (LLMWrapper._query_type e) t none)], .ok (pyStrip resp)) := by
  simp only [LLMWrapper.to_singlestore, h1, h3, if_neg h2, h4]

/-- An oracle for the non-procedure path: everything parses as a plain query,
the deterministic transpiler is the identity, and the assistant always
answers with surrounding whitespace. -/
def oC4 : Oracle :=
  { parse_one := fun _ _ => some .nonDDL
    transpile := fun s _ _ => some s
    chat := fun _ => .ok "  OK  "
    generate := fun _ => .ok "" }

/-- C4, counterexample: the assistant's response is "  OK  " but the pipeline
returns "OK" — `response["message"]["content"].strip()` — so the final answer
is not the assistant's response verbatim. -/
theorem C4_counterexample :
    (LLMWrapper.to_singlestore oC4 "llama3" "select 1" "tsql").2 = .ok "OK" ∧
    oC4.chat (LLMWrapper.validateCall "llama3"
      (LLMWrapper._prompt "query" "select 1" none)) = .ok "  OK  " ∧
    (Except.ok "OK" : Except Err String) ≠ .ok "  OK  " :=
  ⟨by decide, rfl, by decide⟩

/-- C4, amended: for every SQL unit classified as non-procedure, the pipeline
first transpiles it deterministically, then sends the already-transpiled text
to the assistant inside the double-check prompt, and returns the assistant's
response trimmed of surrounding whitespace as the final answer — so the value
returned to the caller is derived from the assistant output, not from the
deterministic transpiler output. -/
theorem C4_assistant_final (o : Oracle) (model sql dialect t resp : String)
    (e : Expression)
    (h1 : o.parse_one sql dialect = some e)
    (h2 : LLMWrapper._query_type e ≠ "stored procedure")
    (h3 : o.transpile sql dialect "singlestore" = some t)
    (h4 : o.chat (LLMWrapper.validateCall model
        ("Double check that the following " ++ LLMWrapper._query_type e ++
          " is valid SingleStore SQL:\n" ++ t)) = .ok resp) :
    LLMWrapper.to_singlestore o model sql dialect =
      ([LLMWrapper.validateCall model
          ("Double check that the following " ++ LLMWrapper._query_type e ++
            " is valid SingleStore SQL:\n" ++ t)], .ok (pyStrip resp)) := by
  have hp : LLMWrapper._prompt (LLMWrapper._query_type e) t none =
      "Double check that the following " ++ LLMWrapper._query_type e ++
        " is valid SingleStore SQL:\n" ++ t := by
    simp only [LLMWrapper._prompt, if_neg h2]
  rw [← hp] at h4
  rw [← hp]
  exact to_singlestore_nonproc o model sql dialect t resp e h1 h2 h3 h4

/-- C4 applied at a concrete generic query. -/
theorem C4_assistant_final_app :
    LLMWrapper.to_singlestore oC4 "llama3" "select 1" "tsql" =
      ([LLMWrapper.validateCall "llama3"
          ("Double check that the following " ++ LLMWrapper._query_type .nonDDL ++
            " is valid SingleStore SQL:\n" ++ "select 1")], .ok (pyStrip "  OK  ")) :=
  C4_assistant_final oC4 "llama3" "select 1" "tsql" "select 1" "  OK  " .nonDDL
    rfl (by decide) rfl rfl

/-- C5: if the declared-dialect parse of the input fails (in particular on an
empty input, which sqlglot's `parse_one` rejects), the entry point returns
the invalid-input error with an EMPTY list of issued assistant calls — the
error arises before any assistant call occurs; and whenever the input parses,
no invalid-input error is ever returned, on either path. -/
theorem C5_invalid_input (o : Oracle) (model sql dialect msg : String) (e : Expression) :
    (o.parse_one sql dialect = none →
      LLMWrapper.to_singlestore o model sql dialect =
        ([], .error (.invalidInput "Please provide sql."))) ∧
    (o.parse_one sql dialect = some e →
      (LLMWrapper.to_singlestore o model sql dialect).2 ≠ .error (.invalidInput msg)) := by
  constructor
  · intro h
    simp only [LLMWrapper.to_singlestore, h]
  · intro hsome hcontra
    revert hcontra
    simp only [LLMWrapper.to_singlestore, hsome]
    by_cases hk : LLMWrapper._query_type e = "stored procedure"
    · rw [if_pos hk]
      exact transpile_procedure_ne_invalid o model sql dialect msg
    · rw [if_neg hk]
      cases ht : o.transpile sql dialect "singlestore" with
      | none => simp
      | some t =>
        cases hc : o.chat (LLMWrapper.validateCall model
            (LLMWrapper._prompt (LLMWrapper._query_type e) t none)) with
        | error e2 => simp [hc]
        | ok content => simp [hc]

/-- An oracle whose parser rejects every input (as sqlglot does on an empty
string). -/
def oNoParse : Oracle :=
  { parse_one := fun _ _ => none
    transpile := fun _ _ _ => none
    chat := fun _ => .error "unreachable"
    generate := fun _ => .error "unreachable" }

/-- C5 applied: the empty input is rejected with the invalid-input error and
zero assistant calls, while a parsing input never yields that error. -/
theorem C5_invalid_input_app :
    LLMWrapper.to_singlestore oNoParse "llama3" "" "tsql" =
      ([], .error (.invalidInput "Please provide sql.")) ∧
    (LLMWrapper.to_singlestore oC4 "llama3" "select 1" "tsql").2 ≠
      .error (.invalidInput "Please provide sql.") :=
  ⟨(C5_invalid_input oNoParse "llama3" "" "tsql" "Please provide sql." .nonDDL).1 rfl,
   (C5_invalid_input oC4 "llama3" "select 1" "tsql" "Please provide sql." .nonDDL).2 rfl⟩

/-- An oracle whose generate endpoint answers with a single line containing
an embedded semicolon. -/
def oSemi : Oracle :=
  { parse_one := fun _ _ => none
    transpile := fun _ _ _ => none
    chat := fun _ => .error "unused"
    generate := fun _ => .ok "A; B" }

/-- C7, counterexample: for the raw extraction response "A; B",
`procedure.extract_transpilable_sql` — a decomposition routine of this
repository — produces the batch ["A", "B"] by splitting on semicolons,
whereas splitting the response into trimmed non-empty lines yields
["A; B"]; so not every decomposition batch equals the line split of the
response. -/
theorem C7_counterexample :
    (Procedure.extract_transpilable_sql oSemi "p" "llama2" Procedure.LLM_URL).2 =
      .ok ["A", "B"] ∧
    pyCleanLines "A; B" = ["A; B"] ∧
    (["A", "B"] : List String) ≠ ["A; B"] :=
  ⟨by decide, by decide, by decide⟩

/-- C7, amended: the wrapper's decomposer returns exactly the assistant's raw
response split into lines, each trimmed, with lines empty after trimming
discarded and line order preserved (the result is a sublist of the trimmed
lines, so nothing is reordered or invented, and no syntactic validation is
applied); the standalone helper `procedure.extract_transpilable_sql`, by
contrast, splits the raw response on semicolons (trimmed, empties discarded)
rather than into lines. -/
theorem C7_decompose_shape (o : Oracle) (model sql content procText purl pmodel raw : String)
    (h1 : o.chat (LLMWrapper.decomposeCall model sql) = .ok content)
    (h2 : o.generate (Procedure.genCall pmodel (Procedure.extractPrompt procText) purl) =
      .ok raw) :
    (LLMWrapper._decompose_procedure o model sql).2 = .ok (pyCleanLines content) ∧
    pyCleanLines content = ((pySplitlines content).map pyStrip).filter (fun s => !(s == "")) ∧
    List.Sublist (pyCleanLines content) ((pySplitlines content).map pyStrip) ∧
    (Procedure.extract_transpilable_sql o procText pmodel purl).2 = .ok (pySemiClean raw) ∧
    pySemiClean raw = ((pySplitSemis raw).map pyStrip).filter (fun s => !(s == "")) := by
  refine ⟨?_, filterMap_strip_eq _, ?_, ?_, filterMap_strip_eq _⟩
  · rw [decompose_eq_ok o model sql content h1]
  · rw [show pyCleanLines content =
        ((pySplitlines content).map pyStrip).filter (fun s => !(s == "")) from
        filterMap_strip_eq _]
    exact List.filter_sublist _
  · simp only [Procedure.extract_transpilable_sql, Procedure._call_llm, h2]

/-- An oracle whose chat response has blank and padded lines and whose
generate response carries an embedded semicolon. -/
def oLines : Oracle :=
  { parse_one := fun _ _ => none
    transpile := fun _ _ _ => none
    chat := fun _ => .ok " SELECT 1 \n\n  SELECT 2\n"
    generate := fun _ => .ok "A; B" }

/-- C7 applied to a concrete multi-line response and a concrete
semicolon-separated response. -/
theorem C7_decompose_shape_app :
    (LLMWrapper._decompose_procedure oLines "llama3" "p").2 =
      .ok (pyCleanLines " SELECT 1 \n\n  SELECT 2\n") ∧
    pyCleanLines " SELECT 1 \n\n  SELECT 2\n" =
      ((pySplitlines " SELECT 1 \n\n  SELECT 2\n").map pyStrip).filter (fun s => !(s == "")) ∧
    List.Sublist (pyCleanLines " SELECT 1 \n\n  SELECT 2\n")
      ((pySplitlines " SELECT 1 \n\n  SELECT 2\n").map pyStrip) ∧
    (Procedure.extract_transpilable_sql oLines "p" "llama2" Procedure.LLM_URL).2 =
      .ok (pySemiClean "A; B") ∧
    pySemiClean "A; B" = ((pySplitSemis "A; B").map pyStrip).filter (fun s => !(s == "")) :=
  C7_decompose_shape oLines "llama3" "p" " SELECT 1 \n\n  SELECT 2\n" "p"
    Procedure.LLM_URL "llama2" "A; B" rfl rfl

/-- C8: on the procedure path, an assistant failure during decomposition or
during reassembly propagates to the caller unmodified and uncaught — the full
return value is the error, so no partial result is produced and no
deterministic fallback is substituted — and `to_singlestore` hands the
procedure path's result through unchanged. -/
theorem C8_service_failure (o : Oracle) (model sql dialect content e1 e2 : String)
    (ex : Expression) :
    (o.chat (LLMWrapper.decomposeCall model sql) = .error e1 →
      LLMWrapper._transpile_procedure o model sql dialect =
        ([LLMWrapper.decomposeCall model sql], .error (.chatError e1))) ∧
    (o.chat (LLMWrapper.decomposeCall model sql) = .ok content →
      o.chat (LLMWrapper.reassembleCall model sql
        (String.intercalate "\n"
          ((pyCleanLines content).map (LLMWrapper.convertStatement o.transpile dialect)))) =
            .error e2 →
      LLMWrapper._transpile_procedure o model sql dialect =
        ([LLMWrapper.decomposeCall model sql,
          LLMWrapper.reassembleCall model sql
            (String.intercalate "\n"
              ((pyCleanLines content).map (LLMWrapper.convertStatement o.transpile dialect)))],
         .error (.chatError e2))) ∧
    (o.parse_one sql dialect = some ex →
      LLMWrapper._query_type ex = "stored procedure" →
      LLMWrapper.to_singlestore o model sql dialect =
        LLMWrapper._transpile_procedure o model sql dialect) := by
  refine ⟨transpile_procedure_eq_err o model sql dialect e1, ?_, ?_⟩
  · intro h1 h2
    rw [transpile_procedure_eq_ok o model sql dialect content h1,
      reassemble_eq_err _ _ _ _ _ h2]
  · intro hp hk
    simp only [LLMWrapper.to_singlestore, hp, if_pos hk]

/-- An oracle whose assistant is entirely down. -/
def oDown : Oracle :=
  { parse_one := fun _ _ => some (.create (some "PROCEDURE"))
    transpile := fun s _ _ => some s
    chat := fun _ => .error "connection refused"
    generate := fun _ => .error "connection refused" }

/-- An oracle whose assistant extracts one statement and then fails during
reassembly. -/
def oHalf : Oracle :=
  { parse_one := fun _ _ => some (.create (some "PROCEDURE"))
    transpile := fun s _ _ => some s
    chat := fun c =>
      if (c.messages.headD { role := "", content := "" }).content =
          "You extract SQL statements." then .ok "SELECT 1"
      else .error "timeout"
    generate := fun _ => .error "timeout" }

/-- C8 applied: a decomposition failure and a reassembly failure each
propagate as the whole result, and the entry point routes the procedure
input to the procedure path. -/
theorem C8_service_failure_app :
    LLMWrapper._transpile_procedure oDown "llama3" "CREATE PROCEDURE p" "tsql" =
      ([LLMWrapper.decomposeCall "llama3" "CREATE PROCEDURE p"],
       .error (.chatError "connection refused")) ∧
    LLMWrapper._transpile_procedure oHalf "llama3" "CREATE PROCEDURE p" "tsql" =
      ([LLMWrapper.decomposeCall "llama3" "CREATE PROCEDURE p",
        LLMWrapper.reassembleCall "llama3" "CREATE PROCEDURE p"
          (String.intercalate "\n"
            ((pyCleanLines "SELECT 1").map
              (LLMWrapper.convertStatement oHalf.transpile "tsql")))],
       .error (.chatError "timeout")) ∧
    LLMWrapper.to_singlestore oDown "llama3" "CREATE PROCEDURE p" "tsql" =
      LLMWrapper._transpile_procedure oDown "llama3" "CREATE PROCEDURE p" "tsql" :=
  ⟨(C8_service_failure oDown "llama3" "CREATE PROCEDURE p" "tsql" "" "connection refused" ""
      .nonDDL).1 rfl,
   (C8_service_failure oHalf "llama3" "CREATE PROCEDURE p" "tsql" "SELECT 1" "" "timeout"
      .nonDDL).2.1 rfl rfl,
   (C8_service_failure oDown "llama3" "CREATE PROCEDURE p" "tsql" "" "" ""
      (.create (some "PROCEDURE"))).2.2 rfl (by decide)⟩

/-- An oracle for a full successful procedure-path run. -/
def oProcDemo : Oracle :=
  { parse_one := fun _ _ => some (.create (some "PROCEDURE"))
    transpile := fun s _ _ => some s
    chat := fun _ => .ok "SELECT 1"
    generate := fun _ => .ok "x" }

/-- C9: evaluating the pipeline at the failing input.  Every `ollama.chat`
request issued by the wrapper pipeline — both calls of a procedure-path run
and the single call of a non-procedure run — carries NO timeout at the call
boundary, contradicting the claim that every assistant call is issued with an
enforced timeout; only the standalone helper `procedure._call_llm` supplies
`timeout=60` to its request. -/
theorem C9_timeout_eval :
    ((LLMWrapper.to_singlestore oProcDemo "llama3" "CREATE PROCEDURE p AS SELECT 1" "tsql").1.map
        ChatCall.timeout) = [none, none] ∧
    ((LLMWrapper.to_singlestore oC4 "llama3" "select 1" "tsql").1.map ChatCall.timeout) =
      [none] ∧
    ((Procedure._call_llm oProcDemo "p" "llama2" Procedure.LLM_URL).1.map GenCall.timeout) =
      [some 60] :=
  ⟨rfl, rfl, rfl⟩

/-- C10: when decomposition succeeds but yields an empty statement batch (the
response has no non-empty lines), the procedure path raises no error: the
conversion loop is skipped, reassembly is still invoked with an empty
converted-statements text, and its trimmed response is the final result. -/
theorem C10_empty_batch (o : Oracle) (model sql dialect content resp : String)
    (h1 : o.chat (LLMWrapper.decomposeCall model sql) = .ok content)
    (h2 : pyCleanLines content = [])
    (h3 : o.chat (LLMWrapper.reassembleCall model sql "") = .ok resp) :
    LLMWrapper._transpile_procedure o model sql dialect =
      ([LLMWrapper.decomposeCall model sql, LLMWrapper.reassembleCall model sql ""],
       .ok (pyStrip resp)) := by
  rw [transpile_procedure_eq_ok o model sql dialect content h1, h2]
  rw [show String.intercalate "\n" (([] : List String).map
    (LLMWrapper.convertStatement o.transpile dialect)) = "" from rfl]
  rw [reassemble_eq_ok o model sql "" resp h3]

/-- An oracle whose extraction response is only whitespace. -/
def oEmptyBatch : Oracle :=
  { parse_one := fun _ _ => some (.create (some "PROCEDURE"))
    transpile := fun s _ _ => some s
    chat := fun c =>
      if (c.messages.headD { role := "", content := "" }).content =
          "You extract SQL statements." then .ok "\n  \n"
      else .ok "  DONE  "
    generate := fun _ => .ok "" }

/-- C10 applied: a whitespace-only extraction response yields the reassembled
(and trimmed) result with no error. -/
theorem C10_empty_batch_app :
    LLMWrapper._transpile_procedure oEmptyBatch "llama3" "CREATE PROCEDURE p" "tsql" =
      ([LLMWrapper.decomposeCall "llama3" "CREATE PROCEDURE p",
        LLMWrapper.reassembleCall "llama3" "CREATE PROCEDURE p" ""],
       .ok "DONE") :=
  C10_empty_batch oEmptyBatch "llama3" "CREATE PROCEDURE p" "tsql" "\n  \n" "  DONE  "
    rfl rfl rfl
